import Mathlib

/-!
Verification of the brace-placement rule core
(`src/lib/rules/brace-on-same-line.js`).

The rule consumes a pre-built syntax tree and token stream supplied by the
host, so the embedding models each visited construct by the exact data the
rule reads from the host accessors: token values, 1-based start lines,
0-based start columns, and absolute text ranges.  Pure functions of the
source (`checkBlock`, `checkForCuddled`, `checkSwitchStatement`, the style
resolver, the visitor table) become Lean functions producing the ordered
list of diagnostics the source would report.  Diagnostic node attribution
(the `node:` field of `context.report`) is not modelled; no claim reads it.
-/

namespace BraceRules

/-- A lexical token (or a statement's start anchor): its text, the 1-based
start line (`loc.start.line`), the 0-based start column (`loc.start.column`)
and its absolute text range (`range[0]`, `range[1]`). -/
structure Tok where
  value : String
  line : Nat
  col : Nat
  startPos : Nat
  endPos : Nat
deriving DecidableEq

/-- A text edit, as produced by the ESLint fixer calls the source makes:
`fixer.insertTextBefore(token, text)` becomes `insertBefore token.range[0]
text`; `fixer.replaceTextRange([a, b], text)` becomes `replaceRange a b
text`. -/
inductive Fix where
  | insertBefore (pos : Nat) (text : String)
  | replaceRange (rangeStart rangeEnd : Nat) (text : String)
deriving DecidableEq

/-- A reported diagnostic: its message and its fix. -/
structure Diagnostic where
  message : String
  fix : Option Fix
deriving DecidableEq

def OPEN_MESSAGE : String := "Opening curly brace does not appear on the same line as controlling statement."

def OPEN_MESSAGE_ALLMAN : String := "Opening curly brace appears on the same line as controlling statement."

def BODY_MESSAGE : String := "Statement inside of curly braces should be on next line."

def CLOSE_MESSAGE : String := "Closing curly brace does not appear on the same line as the subsequent block."

def CLOSE_MESSAGE_SINGLE : String := "Closing curly brace should be on the same line as opening curly brace or on the line after the previous block."

def CLOSE_MESSAGE_STROUSTRUP_ALLMAN : String := "Closing curly brace appears on the same line as the subsequent block."

def newlineStr : String := "\n"

def oneSpace : String := " "

def openBraceStr : String := "\x7b"

def closeBraceStr : String := "\x7d"

/-- Source `insertBreakBefore(token, whitespace)`: insert a line break plus
the given whitespace before the token. -/
def insertBreakBefore (token : Tok) (whitespace : String) : Fix :=
  Fix.insertBefore token.startPos (newlineStr ++ whitespace)

/-- Source `removeBreakBetween(startToken, endToken)`: replace the text
between the two tokens by a single space. -/
def removeBreakBetween (startToken endToken : Tok) : Fix :=
  Fix.replaceRange startToken.endPos endToken.startPos oneSpace

/-- Source `isCurlyPunctuator`: the token's text is an opening or closing
curly brace. -/
def isCurlyPunctuator (token : Tok) : Bool :=
  token.value == openBraceStr || token.value == closeBraceStr

/-- The geometry of a brace-delimited block, i.e. the data `checkBlock`
reads through the host accessors: the token before the block
(`getTokenBefore`), its first and last tokens (the braces), and the start
anchor of each statement of its body.  The anchor of a statement carries
the statement's `loc.start` and full range. -/
structure BlockGeom where
  prevTok : Tok
  openTok : Tok
  closeTok : Tok
  body : List Tok
deriving DecidableEq

/-- A syntax-tree node as far as the rule inspects it: either a
`BlockStatement` with its geometry, or any other kind of node. -/
inductive Node where
  | blockStmt (g : BlockGeom)
  | nonBlock
deriving DecidableEq

/-- Source `isBlock`: the node is a `BlockStatement`. -/
def isBlock : Node → Bool
  | Node.blockStmt _ => true
  | Node.nonBlock => false

/-- The twelve construct types the rule knows (source `blocks` array). -/
inductive BlockType where
  | FunctionDeclaration
  | FunctionExpression
  | ArrowFunctionExpression
  | IfStatement
  | TryStatement
  | DoWhileStatement
  | WhileStatement
  | WithStatement
  | ForStatement
  | ForInStatement
  | ForOfStatement
  | SwitchStatement
deriving DecidableEq

/-- The resolved options object after the factory's normalisation loop:
each construct type is mapped to a boolean or absent (deleted / never
present), and the three flag keys are read by JS truthiness (absent =
false). -/
structure Options where
  typeVal : BlockType → Option Bool
  noCuddledElse : Bool
  noCuddledCatchFinally : Bool
  allowSingleLine : Bool

/-- JS truthiness of `options[type]` for a resolved options object:
`undefined` and `false` are falsy. -/
def polOf (o : Options) (t : BlockType) : Bool := (o.typeVal t).getD false

def spacesOf (n : Nat) : String := String.mk (List.replicate n ' ')

/-- Source `checkBlock(node, expectSameLine, whitespace, parentNode)`
translated clause by clause; returns the reports in source order.  A
non-block (or absent) argument returns nothing (the `isBlock` guard). -/
def checkBlock (options : Options) (node : Option Node) (expectSameLine : Bool) (whitespace : String) : List Diagnostic :=
  match node with
  | some (Node.blockStmt g) =>
    let previousToken := g.prevTok
    let curlyToken := g.openTok
    let curlyTokenEnd := g.closeTok
    let allOnSameLine := previousToken.line == curlyTokenEnd.line
    if allOnSameLine && options.allowSingleLine then []
    else
      let startSameLine := previousToken.line == curlyToken.line
      let openDiags :=
        if startSameLine != expectSameLine then
          [{ message := if startSameLine then OPEN_MESSAGE_ALLMAN else OPEN_MESSAGE,
             fix := some (if startSameLine then insertBreakBefore curlyToken whitespace
                          else removeBreakBetween previousToken curlyToken) }]
        else []
      match g.body with
      | [] => openDiags
      | first :: rest =>
        let bodyDiags :=
          if curlyToken.line == first.line then
            [{ message := BODY_MESSAGE,
               fix := some (insertBreakBefore curlyToken (spacesOf first.col)) }]
          else []
        let lastToken := rest.getLastD first
        let endDiags :=
          if curlyTokenEnd.line == lastToken.line then
            [{ message := CLOSE_MESSAGE_SINGLE,
               fix := some (insertBreakBefore curlyTokenEnd whitespace) }]
          else []
        openDiags ++ bodyDiags ++ endDiags
  | _ => []

/-- Source `checkForCuddled(node, previousToken, firstToken, expectSameLine,
leadingWhitespace)` translated clause by clause. -/
def checkForCuddled (previousToken firstToken : Tok) (expectSameLine : Bool) (leadingWhitespace : String) : List Diagnostic :=
  let closeOnSameLine := previousToken.line == firstToken.line
  if expectSameLine then
    if !closeOnSameLine && isCurlyPunctuator previousToken then
      [{ message := CLOSE_MESSAGE,
         fix := some (removeBreakBetween previousToken firstToken) }]
    else []
  else
    if closeOnSameLine then
      [{ message := CLOSE_MESSAGE_STROUSTRUP_ALLMAN,
         fix := some (insertBreakBefore firstToken leadingWhitespace) }]
    else []

/-- A per-type configuration value before normalisation, as constrained by
the schema: the strings "always", "never", "ignore". -/
inductive ConfigVal where
  | always
  | never
  | ignore
deriving DecidableEq

/-- An un-normalised options object: per-type string values plus the three
optional flags (a JS object may have each key present or absent). -/
structure RawOptions where
  typeVal : BlockType → Option ConfigVal
  noCuddledElse : Option Bool
  noCuddledCatchFinally : Option Bool
  allowSingleLine : Option Bool

/-- Source `styles["1tbs"]`: every construct type mapped to "always". -/
def preset1tbs : RawOptions :=
  { typeVal := fun _ => some ConfigVal.always,
    noCuddledElse := none, noCuddledCatchFinally := none, allowSingleLine := none }

/-- Source `styles.allman`: every construct type mapped to "never". -/
def presetAllman : RawOptions :=
  { typeVal := fun _ => some ConfigVal.never,
    noCuddledElse := none, noCuddledCatchFinally := none, allowSingleLine := none }

/-- Source `styles.stroustrup`: the 1tbs map assigned over both cuddle
flags set to true. -/
def presetStroustrup : RawOptions :=
  { preset1tbs with noCuddledElse := some true, noCuddledCatchFinally := some true }

inductive PresetName where
  | p1tbs
  | stroustrup
  | allman
deriving DecidableEq

/-- The first positional option: a preset name or an explicit per-type
map. -/
inductive StyleArg where
  | named (p : PresetName)
  | explicitMap (m : BlockType → Option ConfigVal)

/-- Factory lines 49-51: a string option selects the preset of that name;
an object is used as the style directly. -/
def styleOf : StyleArg → RawOptions
  | StyleArg.named PresetName.p1tbs => preset1tbs
  | StyleArg.named PresetName.allman => presetAllman
  | StyleArg.named PresetName.stroustrup => presetStroustrup
  | StyleArg.explicitMap m =>
    { typeVal := m,
      noCuddledElse := none, noCuddledCatchFinally := none, allowSingleLine := none }

/-- `_.assign({}, style, overrides)`: for each key, the overrides object's
value wins when the key is present there, otherwise the style's value is
kept. -/
def mergeRaw (style overrides : RawOptions) : RawOptions :=
  { typeVal := fun t =>
      match overrides.typeVal t with
      | some v => some v
      | none => style.typeVal t,
    noCuddledElse :=
      match overrides.noCuddledElse with
      | some b => some b
      | none => style.noCuddledElse,
    noCuddledCatchFinally :=
      match overrides.noCuddledCatchFinally with
      | some b => some b
      | none => style.noCuddledCatchFinally,
    allowSingleLine :=
      match overrides.allowSingleLine with
      | some b => some b
      | none => style.allowSingleLine }

/-- The factory's normalisation loop over the type keys (lines 55-63):
"ignore" deletes the key, otherwise the key becomes `value === "always"`. -/
def resolveType : Option ConfigVal → Option Bool
  | none => none
  | some ConfigVal.ignore => none
  | some ConfigVal.always => some true
  | some ConfigVal.never => some false

/-- Normalise a merged options object: type keys through `resolveType`, the
flags read by truthiness thereafter (absent behaves as false). -/
def normalizeOptions (r : RawOptions) : Options :=
  { typeVal := fun t => resolveType (r.typeVal t),
    noCuddledElse := r.noCuddledElse.getD false,
    noCuddledCatchFinally := r.noCuddledCatchFinally.getD false,
    allowSingleLine := r.allowSingleLine.getD false }

/-- An absent second positional option: `_.assign({}, style, undefined)`
keeps the style unchanged. -/
def emptyOverrides : RawOptions :=
  { typeVal := fun _ => none,
    noCuddledElse := none, noCuddledCatchFinally := none, allowSingleLine := none }

/-- The factory's whole option resolution: select the style, assign the
overrides over it, then run the normalisation loop. -/
def resolveOptions (s : StyleArg) (overrides : RawOptions) : Options :=
  normalizeOptions (mergeRaw (styleOf s) overrides)

/-- The resolved options for preset 1tbs with no second option. -/
def opts1tbs : Options := resolveOptions (StyleArg.named PresetName.p1tbs) emptyOverrides

def emptyWs : String := ""

/-- The data `checkNode`-made handlers read from a visited node: its `body`
slot and the result of `getWhitespaceBefore(node)` (the Whitespace
Extractor is a host accessor over the raw text; its result is modelled as
node data). -/
structure SimpleGeom where
  body : Node
  leadingWs : String
deriving DecidableEq

/-- An `else` clause: the alternate node together with the two tokens
before it (`getTokensBefore(node.alternate, 2)` in source order, i.e. the
consequent's last token then the `else` keyword). -/
structure AltInfo where
  node : Node
  prevTok : Tok
  firstTok : Tok
deriving DecidableEq

/-- The data `checkIfStatement` reads from an `IfStatement` node. -/
structure IfGeom where
  consequent : Node
  alternate : Option AltInfo
  leadingWs : String
deriving DecidableEq

/-- A `catch` clause as read through its `TryStatement` parent: the
handler's body, the token before the handler (`getTokenBefore(node.handler)`)
and the handler's first token (the `catch` keyword). -/
structure CatchInfo where
  body : Node
  prevTok : Tok
  firstTok : Tok
deriving DecidableEq

/-- A `finally` block: the finalizer node together with the two tokens
before it (`getTokensBefore(node.finalizer, 2)`). -/
structure FinInfo where
  node : Node
  prevTok : Tok
  firstTok : Tok
deriving DecidableEq

/-- The data `checkTryStatement` reads from a `TryStatement` node.  The
`block` slot (the `try` block itself) is mandatory in the syntax tree. -/
structure TryGeom where
  block : Node
  handler : Option CatchInfo
  finalizer : Option FinInfo
  leadingWs : String
deriving DecidableEq

/-- The data `checkSwitchStatement` reads from a `SwitchStatement` node:
whether the case list is non-empty, the two tokens before the first case
(meaningful when it is), and the statement's last three tokens
(`getLastTokens(node, 3)` in source order). -/
structure SwitchGeom where
  hasCases : Bool
  tokensBeforeFirstCase : Tok × Tok
  lastTokens3 : Tok × Tok × Tok
  leadingWs : String
deriving DecidableEq

/-- The data the (never registered) `checkCatchClause` would read from a
`CatchClause` node. -/
structure CatchClauseGeom where
  body : Node
  prevTok : Tok
  firstTok : Tok
deriving DecidableEq

/-- The `expectSameLine` expression passed for an `else` clause (source
line 222): `options.IfStatement && !options.noCuddledElse &&
isBlock(node.consequent)` under JS truthiness. -/
def elseExpectSameLine (o : Options) (g : IfGeom) : Bool :=
  polOf o BlockType.IfStatement && !o.noCuddledElse && isBlock g.consequent

/-- The `expectSameLine` expression passed for a `catch` clause (source
line 247): `options.TryStatement && !options.noCuddledCatchFinally`. -/
def catchExpectSameLine (o : Options) : Bool :=
  polOf o BlockType.TryStatement && !o.noCuddledCatchFinally

/-- The `expectSameLine` expression passed for a `finally` block (source
line 256); the source repeats the expression used for `catch` verbatim. -/
def finallyExpectSameLine (o : Options) : Bool :=
  polOf o BlockType.TryStatement && !o.noCuddledCatchFinally

/-- Source `checkNode(type)`: a no-op when the type key is absent from the
options, else `checkBlock` on the node's body. -/
def checkNodeHandler (o : Options) (t : BlockType) (g : SimpleGeom) : List Diagnostic :=
  match o.typeVal t with
  | none => []
  | some pol => checkBlock o (some g.body) pol g.leadingWs

/-- Source `checkIfStatement`, reports in source order: consequent block,
alternate block, then the cuddle check when an alternate exists. -/
def checkIfStatement (o : Options) (g : IfGeom) : List Diagnostic :=
  match o.typeVal BlockType.IfStatement with
  | none => []
  | some pol =>
    checkBlock o (some g.consequent) pol g.leadingWs
    ++ checkBlock o (g.alternate.map AltInfo.node) pol g.leadingWs
    ++ (match g.alternate with
        | none => []
        | some alt =>
          checkForCuddled alt.prevTok alt.firstTok (elseExpectSameLine o g) g.leadingWs)

/-- Source `checkTryStatement`, reports in source order: the try block,
then the handler (block check, and cuddle check when its body is a block),
then the finalizer (likewise). -/
def checkTryStatement (o : Options) (g : TryGeom) : List Diagnostic :=
  match o.typeVal BlockType.TryStatement with
  | none => []
  | some pol =>
    checkBlock o (some g.block) pol g.leadingWs
    ++ (match g.handler with
        | none => []
        | some h =>
          checkBlock o (some h.body) pol g.leadingWs
          ++ (if isBlock h.body then
                checkForCuddled h.prevTok h.firstTok (catchExpectSameLine o) g.leadingWs
              else []))
    ++ (match g.finalizer with
        | none => []
        | some fin =>
          checkBlock o (some fin.node) pol g.leadingWs
          ++ (if isBlock fin.node then
                checkForCuddled fin.prevTok fin.firstTok (finallyExpectSameLine o) g.leadingWs
              else []))

/-- Source `checkCatchClause` (defined but never registered): note it
passes `options.TryStatement` by truthiness without an `in` guard and no
whitespace argument (defaulting to the empty string). -/
def checkCatchClause (o : Options) (g : CatchClauseGeom) : List Diagnostic :=
  checkBlock o (some g.body) (polOf o BlockType.TryStatement) emptyWs
  ++ (if isBlock g.body then
        checkForCuddled g.prevTok g.firstTok (catchExpectSameLine o) emptyWs
      else [])

/-- The `tokens` pair `checkSwitchStatement` examines: the two tokens
before the first case when cases exist, else the first two of the
statement's last three tokens. -/
def switchTokenPair (g : SwitchGeom) : Tok × Tok :=
  if g.hasCases then g.tokensBeforeFirstCase
  else (g.lastTokens3.1, g.lastTokens3.2.1)

/-- Source `checkSwitchStatement`: pick the token pair, compare its line
relation with the policy value. -/
def checkSwitchStatement (o : Options) (g : SwitchGeom) : List Diagnostic :=
  match o.typeVal BlockType.SwitchStatement with
  | none => []
  | some pol =>
    let tokens := switchTokenPair g
    let sameLine := tokens.1.line == tokens.2.line
    if pol != sameLine then
      [{ message := if sameLine then OPEN_MESSAGE_ALLMAN else OPEN_MESSAGE,
         fix := some (if sameLine then insertBreakBefore tokens.2 g.leadingWs
                      else removeBreakBetween tokens.1 tokens.2) }]
    else []

/-- A visited node, tagged by its syntactic shape. -/
inductive AnyNode where
  | simple (g : SimpleGeom)
  | ifS (g : IfGeom)
  | tryS (g : TryGeom)
  | switchS (g : SwitchGeom)
  | catchS (g : CatchClauseGeom)
deriving DecidableEq

/-- Run a `checkNode`-style handler on a visited node; a node of the wrong
shape for its registered key never occurs during a host traversal. -/
def simpleHandler (o : Options) (t : BlockType) : AnyNode → List Diagnostic
  | AnyNode.simple g => checkNodeHandler o t g
  | _ => []

/-- The visitor object the factory returns (source lines 306-319): one
entry per registered node-type key, in source order. -/
def visitorMap (o : Options) : List (String × (AnyNode → List Diagnostic)) :=
  [("FunctionDeclaration", simpleHandler o BlockType.FunctionDeclaration),
   ("FunctionExpression", simpleHandler o BlockType.FunctionExpression),
   ("ArrowFunctionExpression", simpleHandler o BlockType.ArrowFunctionExpression),
   ("IfStatement", fun n =>
     match n with
     | AnyNode.ifS g => checkIfStatement o g
     | _ => []),
   ("TryStatement", fun n =>
     match n with
     | AnyNode.tryS g => checkTryStatement o g
     | _ => []),
   ("DoWhileStatement", simpleHandler o BlockType.DoWhileStatement),
   ("WhileStatement", simpleHandler o BlockType.WhileStatement),
   ("WithStatement", simpleHandler o BlockType.WithStatement),
   ("ForStatement", simpleHandler o BlockType.ForStatement),
   ("ForInStatement", simpleHandler o BlockType.ForInStatement),
   ("ForOfStatement", simpleHandler o BlockType.ForOfStatement),
   ("SwitchStatement", fun n =>
     match n with
     | AnyNode.switchS g => checkSwitchStatement o g
     | _ => [])]

/-- The host calls the callback registered under the visited node's type
name, if any. -/
def runVisitor (o : Options) (typeName : String) (n : AnyNode) : List Diagnostic :=
  match List.lookup typeName (visitorMap o) with
  | none => []
  | some h => h n

/-- The registered key for each construct type. -/
def blockTypeName : BlockType → String
  | BlockType.FunctionDeclaration => "FunctionDeclaration"
  | BlockType.FunctionExpression => "FunctionExpression"
  | BlockType.ArrowFunctionExpression => "ArrowFunctionExpression"
  | BlockType.IfStatement => "IfStatement"
  | BlockType.TryStatement => "TryStatement"
  | BlockType.DoWhileStatement => "DoWhileStatement"
  | BlockType.WhileStatement => "WhileStatement"
  | BlockType.WithStatement => "WithStatement"
  | BlockType.ForStatement => "ForStatement"
  | BlockType.ForInStatement => "ForInStatement"
  | BlockType.ForOfStatement => "ForOfStatement"
  | BlockType.SwitchStatement => "SwitchStatement"

/-- Apply one fix to a source text (ESLint's fixer semantics on character
positions; all texts involved are ASCII so byte and character positions
coincide). -/
def applyEdit (src : List Char) : Fix → List Char
  | Fix.insertBefore p text => src.take p ++ text.data ++ src.drop p
  | Fix.replaceRange a b text => src.take a ++ text.data ++ src.drop b

/-- The 1-based line number of character position `p` in `src`. -/
def lineAt (src : List Char) (p : Nat) : Nat := 1 + (src.take p).count '\n'

/-- The 0-based column of character position `p` in `src`. -/
def colAt (src : List Char) (p : Nat) : Nat :=
  ((src.take p).reverse.takeWhile (fun c => c != '\n')).length

/-- A token's recorded text, line and column agree with the source text. -/
def tokMatches (src : List Char) (t : Tok) : Bool :=
  ((src.drop t.startPos).take (t.endPos - t.startPos) == t.value.data)
  && (lineAt src t.startPos == t.line)
  && (colAt src t.startPos == t.col)

/-- A block geometry is the one a tokenizer of `src` would produce for its
tokens. -/
def blockGeomMatches (src : List Char) (g : BlockGeom) : Bool :=
  tokMatches src g.prevTok && tokMatches src g.openTok && tokMatches src g.closeTok
  && g.body.all (tokMatches src)

/-- The source text "if (x) { y();\n}": an if statement whose block shares
the opening brace's line with both the controlling statement and the first
statement. -/
def c1TextBefore : String := "if (x) \x7b y();\n\x7d"

def c1SrcBefore : List Char := c1TextBefore.data

def closeParenStr : String := ")"

def c1StmtText : String := "y();"

/-- The geometry of the consequent block of `c1TextBefore`. -/
def c1GeomBefore : BlockGeom :=
  { prevTok := { value := closeParenStr, line := 1, col := 5, startPos := 5, endPos := 6 },
    openTok := { value := openBraceStr, line := 1, col := 7, startPos := 7, endPos := 8 },
    closeTok := { value := closeBraceStr, line := 2, col := 0, startPos := 14, endPos := 15 },
    body := [{ value := c1StmtText, line := 1, col := 9, startPos := 9, endPos := 13 }] }

/-- The one fix `checkBlock` emits on `c1GeomBefore` under 1tbs: insert a
line break plus nine spaces before the opening brace. -/
def c1Fix : Fix := Fix.insertBefore 7 (newlineStr ++ spacesOf 9)

/-- `c1TextBefore` after applying `c1Fix`. -/
def c1TextAfter : String := "if (x) \n         \x7b y();\n\x7d"

def c1SrcAfter : List Char := c1TextAfter.data

/-- The geometry of the same block in `c1TextAfter`. -/
def c1GeomAfter : BlockGeom :=
  { prevTok := { value := closeParenStr, line := 1, col := 5, startPos := 5, endPos := 6 },
    openTok := { value := openBraceStr, line := 2, col := 9, startPos := 17, endPos := 18 },
    closeTok := { value := closeBraceStr, line := 3, col := 0, startPos := 24, endPos := 25 },
    body := [{ value := c1StmtText, line := 2, col := 11, startPos := 19, endPos := 23 }] }

/-- The cuddle checks are the only reporters of these two messages. -/
def isCuddleMessage (m : String) : Bool :=
  m == CLOSE_MESSAGE || m == CLOSE_MESSAGE_STROUSTRUP_ALLMAN

/-- The diagnostics of a report list that come from a cuddle check. -/
def cuddleDiags (l : List Diagnostic) : List Diagnostic :=
  l.filter (fun d => isCuddleMessage d.message)

/-- The text range a fix touches: an insertion touches the empty range at
its position. -/
def fixRange : Fix → Nat × Nat
  | Fix.insertBefore p _ => (p, p)
  | Fix.replaceRange a b _ => (a, b)

/-- Two ranges are disjoint when neither reaches into the interior of the
other (half-open interval reading). -/
def rangesDisjoint (r1 r2 : Nat × Nat) : Prop := r1.2 ≤ r2.1 ∨ r2.2 ≤ r1.1

/-- Two diagnostics have non-conflicting edits. -/
def diagFixesDisjoint (d1 d2 : Diagnostic) : Prop :=
  match d1.fix, d2.fix with
  | some f1, some f2 => rangesDisjoint (fixRange f1) (fixRange f2)
  | _, _ => True

/-- The token-order facts a real token stream satisfies for a block: the
previous token ends before the opening brace starts, and the opening brace
starts before the closing brace does. -/
def wellFormedBlock (g : BlockGeom) : Prop :=
  g.prevTok.endPos ≤ g.openTok.startPos ∧ g.openTok.startPos ≤ g.closeTok.startPos

/-- C1: the claim states that for every Block checked under preset 1tbs,
applying all fixes of one Placement Checker visit and re-checking yields
zero further diagnostics.  The code violates this: on the block of
`if (x) { y();\n}` the only emitted fix (for the first-statement sub-check)
inserts the line break before the opening brace instead of before the first
statement, so the fixed text violates both the open-brace and the
first-statement sub-checks — re-checking reports two diagnostics, not
zero.  This theorem evaluates the code at that failing input: the before
and after geometries are certified against the actual texts by
`blockGeomMatches`. -/
theorem c1_first_statement_fix_does_not_converge :
  blockGeomMatches c1SrcBefore c1GeomBefore = true
  ∧ checkBlock opts1tbs (some (Node.blockStmt c1GeomBefore)) true emptyWs
      = [{ message := BODY_MESSAGE, fix := some c1Fix }]
  ∧ applyEdit c1SrcBefore c1Fix = c1SrcAfter
  ∧ blockGeomMatches c1SrcAfter c1GeomAfter = true
  ∧ (checkBlock opts1tbs (some (Node.blockStmt c1GeomAfter)) true emptyWs).length = 2 := by
  exact ⟨by decide, by decide, by decide, by decide, by decide⟩

/-- C2: within one visit of one Block, the text ranges edited by the fixes
of the three Placement Checker sub-checks (open-brace, first-statement,
closing-brace) are pairwise disjoint, for any subset of the three that
fires — formalised as: the diagnostics of one `checkBlock` call are
pairwise `diagFixesDisjoint`, for any options, expectation and whitespace,
whenever the block's tokens are in stream order. -/
theorem c2_single_visit_fix_ranges_disjoint (o : Options) (g : BlockGeom) (e : Bool) (w : String)
  (hwf : wellFormedBlock g) :
  List.Pairwise diagFixesDisjoint (checkBlock o (some (Node.blockStmt g)) e w) := by
  obtain ⟨h1, h2⟩ := hwf
  dsimp only [checkBlock]
  cases hbody : g.body with
  | nil =>
    split_ifs <;>
      simp [diagFixesDisjoint, rangesDisjoint, fixRange, insertBreakBefore, removeBreakBetween]
  | cons first rest =>
    split_ifs <;>
      simp_all [diagFixesDisjoint, rangesDisjoint, fixRange, insertBreakBefore,
        removeBreakBetween, List.pairwise_cons, List.pairwise_append] <;>
      first
        | omega
        | (rintro a (⟨-, rfl⟩ | ⟨-, rfl⟩) <;>
            simp [diagFixesDisjoint, rangesDisjoint, fixRange, insertBreakBefore] <;> omega)
        | (constructor <;>
            first
              | (split_ifs <;> simp)
              | (rintro a (⟨-, rfl⟩ | ⟨-, rfl⟩) <;>
                  simp [diagFixesDisjoint, rangesDisjoint, fixRange, insertBreakBefore] <;> omega))

/-- A block of `fn ()\n\x7b x(); y(); \x7d`-like geometry on which all
three sub-checks fire at once (open brace on its own line, first statement
on the brace's line, closing brace on the last statement's line). -/
def c2Geom : BlockGeom :=
  { prevTok := { value := closeParenStr, line := 1, col := 5, startPos := 5, endPos := 6 },
    openTok := { value := openBraceStr, line := 2, col := 0, startPos := 7, endPos := 8 },
    closeTok := { value := closeBraceStr, line := 2, col := 15, startPos := 22, endPos := 23 },
    body := [{ value := c1StmtText, line := 2, col := 2, startPos := 9, endPos := 13 },
             { value := c1StmtText, line := 2, col := 7, startPos := 14, endPos := 18 }] }

/-- Witness for C2 at a concrete block where all three sub-checks fire. -/
theorem c2_single_visit_fix_ranges_disjoint_witness :
  List.Pairwise diagFixesDisjoint (checkBlock opts1tbs (some (Node.blockStmt c2Geom)) true emptyWs) :=
  c2_single_visit_fix_ranges_disjoint opts1tbs c2Geom true emptyWs ⟨by decide, by decide⟩

theorem isCuddle_open : isCuddleMessage OPEN_MESSAGE = false := by decide

theorem isCuddle_openAllman : isCuddleMessage OPEN_MESSAGE_ALLMAN = false := by decide

theorem isCuddle_body : isCuddleMessage BODY_MESSAGE = false := by decide

theorem isCuddle_closeSingle : isCuddleMessage CLOSE_MESSAGE_SINGLE = false := by decide

theorem cuddleDiags_append (l1 l2 : List Diagnostic) :
  cuddleDiags (l1 ++ l2) = cuddleDiags l1 ++ cuddleDiags l2 := by
  simp [cuddleDiags]

/-- The Placement Checker never emits a cuddle message: its four messages
are all distinct from the two cuddle messages. -/
theorem cuddleDiags_checkBlock (o : Options) (n : Option Node) (e : Bool) (w : String) :
  cuddleDiags (checkBlock o n e w) = [] := by
  match n with
  | none => rfl
  | some Node.nonBlock => rfl
  | some (Node.blockStmt g) =>
    dsimp only [checkBlock]
    cases g.body with
    | nil =>
      split_ifs <;>
        simp [cuddleDiags, List.filter, isCuddle_open, isCuddle_openAllman,
          isCuddle_body, isCuddle_closeSingle]
    | cons first rest =>
      split_ifs <;>
        simp [cuddleDiags, List.filter, isCuddle_open, isCuddle_openAllman,
          isCuddle_body, isCuddle_closeSingle]

theorem elseExpect_allowSingleLine (o : Options) (gi : IfGeom) (b : Bool) :
  elseExpectSameLine { o with allowSingleLine := b } gi = elseExpectSameLine o gi := rfl

theorem catchExpect_allowSingleLine (o : Options) (b : Bool) :
  catchExpectSameLine { o with allowSingleLine := b } = catchExpectSameLine o := rfl

theorem finallyExpect_allowSingleLine (o : Options) (b : Bool) :
  finallyExpectSameLine { o with allowSingleLine := b } = finallyExpectSameLine o := rfl

/-- C3: when `allowSingleLine` is set and the token before the opening
brace starts on the closing brace's line, the Placement Checker emits
nothing for that block; and flipping `allowSingleLine` never changes the
cuddle diagnostics (else/catch/finally) of a visit. -/
theorem c3_allowSingleLine_scope (o : Options) (g : BlockGeom) (e : Bool) (w : String)
  (gi : IfGeom) (gt : TryGeom) (b : Bool) :
  (o.allowSingleLine = true → g.prevTok.line = g.closeTok.line →
    checkBlock o (some (Node.blockStmt g)) e w = [])
  ∧ cuddleDiags (checkIfStatement { o with allowSingleLine := b } gi)
      = cuddleDiags (checkIfStatement o gi)
  ∧ cuddleDiags (checkTryStatement { o with allowSingleLine := b } gt)
      = cuddleDiags (checkTryStatement o gt) := by
  refine ⟨?_, ?_, ?_⟩
  · intro h1 h2
    dsimp only [checkBlock]
    simp [h1, h2]
  · simp only [checkIfStatement]
    cases h : o.typeVal BlockType.IfStatement <;>
      cases ha : gi.alternate <;>
      simp [h, ha, cuddleDiags_append, cuddleDiags_checkBlock, elseExpect_allowSingleLine]
  · simp only [checkTryStatement]
    cases h : o.typeVal BlockType.TryStatement <;>
      cases hh : gt.handler <;>
      cases hf : gt.finalizer <;>
      simp [h, hh, hf, cuddleDiags_append, cuddleDiags_checkBlock,
        catchExpect_allowSingleLine, finallyExpect_allowSingleLine] <;>
      (try split_ifs) <;>
      simp [cuddleDiags_append, cuddleDiags_checkBlock]

/-- 1tbs with `allowSingleLine: true` as the second option. -/
def opts1tbsSingle : Options :=
  resolveOptions (StyleArg.named PresetName.p1tbs)
    { emptyOverrides with allowSingleLine := some true }

/-- A genuine one-liner block: `if (x) { y(); }` all on line 1. -/
def c3Geom : BlockGeom :=
  { prevTok := { value := closeParenStr, line := 1, col := 5, startPos := 5, endPos := 6 },
    openTok := { value := openBraceStr, line := 1, col := 7, startPos := 7, endPos := 8 },
    closeTok := { value := closeBraceStr, line := 1, col := 14, startPos := 14, endPos := 15 },
    body := [{ value := c1StmtText, line := 1, col := 9, startPos := 9, endPos := 13 }] }

def elseKw : String := "else"

def catchKw : String := "catch"

def finallyKw : String := "finally"

/-- An if/else with the else cuddled on the consequent's closing brace. -/
def c3IfGeom : IfGeom :=
  { consequent := Node.blockStmt c3Geom,
    alternate := some
      { node := Node.nonBlock,
        prevTok := { value := closeBraceStr, line := 3, col := 0, startPos := 20, endPos := 21 },
        firstTok := { value := elseKw, line := 3, col := 2, startPos := 22, endPos := 26 } },
    leadingWs := emptyWs }

/-- A try/catch with the catch cuddled on the try block's closing brace. -/
def c3TryGeom : TryGeom :=
  { block := Node.blockStmt c3Geom,
    handler := some
      { body := Node.blockStmt c3Geom,
        prevTok := { value := closeBraceStr, line := 3, col := 0, startPos := 20, endPos := 21 },
        firstTok := { value := catchKw, line := 3, col := 2, startPos := 22, endPos := 27 } },
    finalizer := none,
    leadingWs := emptyWs }

/-- Witness for C3 at a concrete one-liner block and concrete if/try
visits. -/
theorem c3_allowSingleLine_scope_witness :
  checkBlock opts1tbsSingle (some (Node.blockStmt c3Geom)) true emptyWs = []
  ∧ cuddleDiags (checkIfStatement { opts1tbsSingle with allowSingleLine := false } c3IfGeom)
      = cuddleDiags (checkIfStatement opts1tbsSingle c3IfGeom)
  ∧ cuddleDiags (checkTryStatement { opts1tbsSingle with allowSingleLine := false } c3TryGeom)
      = cuddleDiags (checkTryStatement opts1tbsSingle c3TryGeom) :=
  ⟨(c3_allowSingleLine_scope opts1tbsSingle c3Geom true emptyWs c3IfGeom c3TryGeom false).1
      (by decide) (by decide),
   (c3_allowSingleLine_scope opts1tbsSingle c3Geom true emptyWs c3IfGeom c3TryGeom false).2.1,
   (c3_allowSingleLine_scope opts1tbsSingle c3Geom true emptyWs c3IfGeom c3TryGeom false).2.2⟩

/-- C4: preset 1tbs resolves every one of the twelve construct types to
`some true`, allman to `some false`, stroustrup to `some true` with both
cuddle flags set; and a per-type override replaces the preset value
key-by-key, "always" resolving to true, "never" to false, an absent key
leaving the style's own value. -/
theorem c4_presets_and_overrides (s : StyleArg) (ov : RawOptions) (t : BlockType) :
  ((resolveOptions (StyleArg.named PresetName.p1tbs) emptyOverrides).typeVal t = some true)
  ∧ ((resolveOptions (StyleArg.named PresetName.allman) emptyOverrides).typeVal t = some false)
  ∧ ((resolveOptions (StyleArg.named PresetName.stroustrup) emptyOverrides).typeVal t = some true)
  ∧ (resolveOptions (StyleArg.named PresetName.stroustrup) emptyOverrides).noCuddledElse = true
  ∧ (resolveOptions (StyleArg.named PresetName.stroustrup) emptyOverrides).noCuddledCatchFinally = true
  ∧ (ov.typeVal t = some ConfigVal.always → (resolveOptions s ov).typeVal t = some true)
  ∧ (ov.typeVal t = some ConfigVal.never → (resolveOptions s ov).typeVal t = some false)
  ∧ (ov.typeVal t = none → (resolveOptions s ov).typeVal t = resolveType ((styleOf s).typeVal t)) := by
  refine ⟨rfl, rfl, rfl, rfl, rfl, ?_, ?_, ?_⟩ <;>
    (intro h; simp [resolveOptions, normalizeOptions, mergeRaw, h, resolveType])

/-- An overrides object setting only IfStatement to "always". -/
def ovAlwaysIf : RawOptions :=
  { emptyOverrides with
    typeVal := fun t => if t = BlockType.IfStatement then some ConfigVal.always else none }

/-- An overrides object setting only IfStatement to "never". -/
def ovNeverIf : RawOptions :=
  { emptyOverrides with
    typeVal := fun t => if t = BlockType.IfStatement then some ConfigVal.never else none }

/-- Witness for C4 at concrete presets and overrides. -/
theorem c4_presets_and_overrides_witness :
  (resolveOptions (StyleArg.named PresetName.p1tbs) emptyOverrides).typeVal BlockType.IfStatement = some true
  ∧ (resolveOptions (StyleArg.named PresetName.allman) ovAlwaysIf).typeVal BlockType.IfStatement = some true
  ∧ (resolveOptions (StyleArg.named PresetName.p1tbs) ovNeverIf).typeVal BlockType.IfStatement = some false
  ∧ (resolveOptions (StyleArg.named PresetName.p1tbs) ovNeverIf).typeVal BlockType.WhileStatement
      = resolveType ((styleOf (StyleArg.named PresetName.p1tbs)).typeVal BlockType.WhileStatement) :=
  ⟨(c4_presets_and_overrides (StyleArg.named PresetName.p1tbs) emptyOverrides BlockType.IfStatement).1,
   (c4_presets_and_overrides (StyleArg.named PresetName.allman) ovAlwaysIf BlockType.IfStatement).2.2.2.2.2.1 (by decide),
   (c4_presets_and_overrides (StyleArg.named PresetName.p1tbs) ovNeverIf BlockType.IfStatement).2.2.2.2.2.2.1 (by decide),
   (c4_presets_and_overrides (StyleArg.named PresetName.p1tbs) ovNeverIf BlockType.WhileStatement).2.2.2.2.2.2.2 (by decide)⟩

/-- C5: a construct type absent from the resolved policy yields zero
diagnostics when a node of that type is visited, whatever the node's
layout; in particular a `TryStatement: "ignore"` override yields zero
diagnostics for any try/catch/finally layout. -/
theorem c5_absent_type_silent (o : Options) (t : BlockType) (n : AnyNode) (s : StyleArg) (ov : RawOptions)
  (h1 : o.typeVal t = none)
  (h2 : ov.typeVal BlockType.TryStatement = some ConfigVal.ignore) :
  runVisitor o (blockTypeName t) n = []
  ∧ runVisitor (resolveOptions s ov) (blockTypeName BlockType.TryStatement) n = [] := by
  have key : ∀ (o2 : Options) (t2 : BlockType) (n2 : AnyNode), o2.typeVal t2 = none →
      runVisitor o2 (blockTypeName t2) n2 = [] := by
    intro o2 t2 n2 h
    cases t2 <;> cases n2 <;>
      simp [runVisitor, visitorMap, blockTypeName, List.lookup, simpleHandler,
        checkNodeHandler, checkIfStatement, checkTryStatement, checkSwitchStatement, h]
  refine ⟨key o t n h1, ?_⟩
  have habs : (resolveOptions s ov).typeVal BlockType.TryStatement = none := by
    simp [resolveOptions, normalizeOptions, mergeRaw, h2, resolveType]
  exact key (resolveOptions s ov) BlockType.TryStatement n habs

/-- A policy mapping no construct type at all. -/
def optsNone : Options :=
  { typeVal := fun _ => none,
    noCuddledElse := false, noCuddledCatchFinally := false, allowSingleLine := false }

/-- An overrides object setting only TryStatement to "ignore". -/
def ovIgnoreTry : RawOptions :=
  { emptyOverrides with
    typeVal := fun t => if t = BlockType.TryStatement then some ConfigVal.ignore else none }

/-- Witness for C5: a try/catch visit with a cuddled catch and (under
1tbs) ill-placed braces still yields nothing once TryStatement is ignored. -/
theorem c5_absent_type_silent_witness :
  runVisitor optsNone (blockTypeName BlockType.TryStatement) (AnyNode.tryS c3TryGeom) = []
  ∧ runVisitor (resolveOptions (StyleArg.named PresetName.p1tbs) ovIgnoreTry)
      (blockTypeName BlockType.TryStatement) (AnyNode.tryS c3TryGeom) = [] :=
  c5_absent_type_silent optsNone BlockType.TryStatement (AnyNode.tryS c3TryGeom)
    (StyleArg.named PresetName.p1tbs) ovIgnoreTry (by decide) (by decide)

/-- C6: the `expectSameLine` argument of the cuddle checks is derived as
the claim states.  For `else`: the IfStatement policy value is true, and
`noCuddledElse` is unset, and the consequent is a Block.  For `catch`: the
TryStatement policy value is true and `noCuddledCatchFinally` is unset.
For `finally`: the same condition as for `catch`, conjoined with the
presence of the preceding handler or try block — in the syntax tree the
`block` slot of a TryStatement is mandatory (field `TryGeom.block`), so
that presence disjunction is the constant `true` and the code's verbatim
repetition of the catch expression realises exactly the claimed value. -/
theorem c6_expectSameLine_derivation (o : Options) (gi : IfGeom) (gt : TryGeom) :
  elseExpectSameLine o gi
    = ((o.typeVal BlockType.IfStatement == some true) && !o.noCuddledElse && isBlock gi.consequent)
  ∧ catchExpectSameLine o
    = ((o.typeVal BlockType.TryStatement == some true) && !o.noCuddledCatchFinally)
  ∧ finallyExpectSameLine o
    = (catchExpectSameLine o && (gt.handler.isSome || true)) := by
  refine ⟨?_, ?_, ?_⟩
  · simp only [elseExpectSameLine, polOf]
    cases h : o.typeVal BlockType.IfStatement with
    | none => simp
    | some b => cases b <;> simp
  · simp only [catchExpectSameLine, polOf]
    cases h : o.typeVal BlockType.TryStatement with
    | none => simp
    | some b => cases b <;> simp
  · simp [finallyExpectSameLine, catchExpectSameLine]

/-- C7: with `expectSameLine` true, a cuddle diagnostic is emitted iff the
previous token and the clause's first token do not start on the same line
and the previous token is a curly-brace punctuator, the fix collapsing the
gap to one space; with `expectSameLine` false, one is emitted iff they do
start on the same line, the fix inserting a line break before the first
token. -/
theorem c7_cuddle_check_behaviour (p f : Tok) (w : String) :
  ((checkForCuddled p f true w ≠ []) ↔ (p.line ≠ f.line ∧ isCurlyPunctuator p = true))
  ∧ (p.line ≠ f.line → isCurlyPunctuator p = true →
      checkForCuddled p f true w
        = [{ message := CLOSE_MESSAGE, fix := some (removeBreakBetween p f) }])
  ∧ ((checkForCuddled p f false w ≠ []) ↔ p.line = f.line)
  ∧ (p.line = f.line →
      checkForCuddled p f false w
        = [{ message := CLOSE_MESSAGE_STROUSTRUP_ALLMAN, fix := some (insertBreakBefore f w) }]) := by
  by_cases hl : p.line = f.line <;> by_cases hc : isCurlyPunctuator p = true <;>
    simp [checkForCuddled, hl, hc]

/-- A closing brace token on line 3 and an `else` keyword on line 4. -/
def c7BraceTok : Tok := { value := closeBraceStr, line := 3, col := 0, startPos := 20, endPos := 21 }

def c7ElseTokNextLine : Tok := { value := elseKw, line := 4, col := 0, startPos := 22, endPos := 26 }

def c7ElseTokSameLine : Tok := { value := elseKw, line := 3, col := 2, startPos := 22, endPos := 26 }

/-- Witness for C7 at concrete token pairs on and off the same line. -/
theorem c7_cuddle_check_behaviour_witness :
  checkForCuddled c7BraceTok c7ElseTokNextLine true emptyWs
    = [{ message := CLOSE_MESSAGE, fix := some (removeBreakBetween c7BraceTok c7ElseTokNextLine) }]
  ∧ checkForCuddled c7BraceTok c7ElseTokSameLine false emptyWs
    = [{ message := CLOSE_MESSAGE_STROUSTRUP_ALLMAN,
         fix := some (insertBreakBefore c7ElseTokSameLine emptyWs) }] :=
  ⟨(c7_cuddle_check_behaviour c7BraceTok c7ElseTokNextLine emptyWs).2.1 (by decide) (by decide),
   (c7_cuddle_check_behaviour c7BraceTok c7ElseTokSameLine emptyWs).2.2.2 (by decide)⟩

/-- C8: for a SwitchStatement whose type is in the policy, the examined
pair is the two tokens before the first case (cases present) or the first
two of the statement's last three tokens (no cases), and exactly one
diagnostic is emitted iff the policy value differs from whether that pair
shares a line — an empty switch is still checked via the fallback pair. -/
theorem c8_switch_check (o : Options) (g : SwitchGeom) (pol : Bool)
  (h : o.typeVal BlockType.SwitchStatement = some pol) :
  ((checkSwitchStatement o g).length = 1
    ↔ pol ≠ ((switchTokenPair g).1.line == (switchTokenPair g).2.line))
  ∧ (checkSwitchStatement o g = []
    ↔ pol = ((switchTokenPair g).1.line == (switchTokenPair g).2.line)) := by
  by_cases hs : pol = ((switchTokenPair g).1.line == (switchTokenPair g).2.line) <;>
    simp [checkSwitchStatement, h, hs]

/-- The case-less switch `switch (x)\n\x7b\n\x7d`: last three tokens are
the closing parenthesis (line 1), the opening brace (line 2) and the
closing brace (line 3). -/
def c8SwitchAllman : SwitchGeom :=
  { hasCases := false,
    tokensBeforeFirstCase :=
      ({ value := closeParenStr, line := 1, col := 9, startPos := 9, endPos := 10 },
       { value := openBraceStr, line := 2, col := 0, startPos := 11, endPos := 12 }),
    lastTokens3 :=
      ({ value := closeParenStr, line := 1, col := 9, startPos := 9, endPos := 10 },
       { value := openBraceStr, line := 2, col := 0, startPos := 11, endPos := 12 },
       { value := closeBraceStr, line := 3, col := 0, startPos := 13, endPos := 14 }),
    leadingWs := emptyWs }

/-- The case-less switch `switch (x) \x7b\n\x7d`: the opening brace shares
line 1 with the closing parenthesis. -/
def c8SwitchSameLine : SwitchGeom :=
  { hasCases := false,
    tokensBeforeFirstCase :=
      ({ value := closeParenStr, line := 1, col := 9, startPos := 9, endPos := 10 },
       { value := openBraceStr, line := 1, col := 11, startPos := 11, endPos := 12 }),
    lastTokens3 :=
      ({ value := closeParenStr, line := 1, col := 9, startPos := 9, endPos := 10 },
       { value := openBraceStr, line := 1, col := 11, startPos := 11, endPos := 12 },
       { value := closeBraceStr, line := 2, col := 0, startPos := 13, endPos := 14 }),
    leadingWs := emptyWs }

/-- Witness for C8: under 1tbs a case-less switch with the brace on its
own line yields exactly one diagnostic, and with the brace on the
discriminant's line it yields none. -/
theorem c8_switch_check_witness :
  (checkSwitchStatement opts1tbs c8SwitchAllman).length = 1
  ∧ checkSwitchStatement opts1tbs c8SwitchSameLine = [] :=
  ⟨(c8_switch_check opts1tbs c8SwitchAllman true (by decide)).1.mpr (by decide),
   (c8_switch_check opts1tbs c8SwitchSameLine true (by decide)).2.mpr (by decide)⟩

/-- C9: the else cuddle check runs for any non-null alternate, Block or
not — with derived `expectSameLine` false, a same-line `else` after a
non-Block alternate's preceding token is reported — whereas the catch and
finally cuddle checks run only when the handler body resp. finalizer is a
Block (here: when neither is, no cuddle diagnostic at all leaves the
TryStatement visit). -/
theorem c9_else_cuddle_nonblock_alternate (o : Options) (gi : IfGeom) (gt : TryGeom) (alt : AltInfo) (pol : Bool)
  (h1 : gi.alternate = some alt)
  (h2 : isBlock alt.node = false)
  (h3 : o.typeVal BlockType.IfStatement = some pol)
  (h4 : elseExpectSameLine o gi = false)
  (h5 : alt.prevTok.line = alt.firstTok.line)
  (h6 : ∀ h, gt.handler = some h → isBlock h.body = false)
  (h7 : ∀ f, gt.finalizer = some f → isBlock f.node = false) :
  ({ message := CLOSE_MESSAGE_STROUSTRUP_ALLMAN,
     fix := some (insertBreakBefore alt.firstTok gi.leadingWs) } : Diagnostic) ∈ checkIfStatement o gi
  ∧ cuddleDiags (checkTryStatement o gt) = [] := by
  constructor
  · simp only [checkIfStatement, h3, h1]
    have hc : checkForCuddled alt.prevTok alt.firstTok (elseExpectSameLine o gi) gi.leadingWs
        = [{ message := CLOSE_MESSAGE_STROUSTRUP_ALLMAN,
             fix := some (insertBreakBefore alt.firstTok gi.leadingWs) }] := by
      rw [h4]
      simp [checkForCuddled, h5]
    simp [hc]
  · simp only [checkTryStatement]
    cases h : o.typeVal BlockType.TryStatement with
    | none => rfl
    | some p2 =>
      cases hh : gt.handler <;> cases hf : gt.finalizer <;>
        simp_all [cuddleDiags_append, cuddleDiags_checkBlock]

def semicolonStr : String := ";"

/-- `if (x) y(); else z();` — a bare-statement consequent and alternate,
with `else` on the consequent's line. -/
def c9IfGeom : IfGeom :=
  { consequent := Node.nonBlock,
    alternate := some
      { node := Node.nonBlock,
        prevTok := { value := semicolonStr, line := 1, col := 11, startPos := 11, endPos := 12 },
        firstTok := { value := elseKw, line := 1, col := 13, startPos := 13, endPos := 17 } },
    leadingWs := emptyWs }

/-- A try statement whose handler body and finalizer are (hypothetically)
not Blocks. -/
def c9TryGeom : TryGeom :=
  { block := Node.blockStmt c3Geom,
    handler := some
      { body := Node.nonBlock,
        prevTok := { value := closeBraceStr, line := 3, col := 0, startPos := 20, endPos := 21 },
        firstTok := { value := catchKw, line := 3, col := 2, startPos := 22, endPos := 27 } },
    finalizer := none,
    leadingWs := emptyWs }

/-- Witness for C9 at a concrete bare-statement if/else and a concrete
try whose handler body is not a Block. -/
theorem c9_else_cuddle_nonblock_alternate_witness :
  ({ message := CLOSE_MESSAGE_STROUSTRUP_ALLMAN,
     fix := some (insertBreakBefore
       { value := elseKw, line := 1, col := 13, startPos := 13, endPos := 17 } emptyWs) } : Diagnostic)
      ∈ checkIfStatement opts1tbs c9IfGeom
  ∧ cuddleDiags (checkTryStatement opts1tbs c9TryGeom) = [] :=
  c9_else_cuddle_nonblock_alternate opts1tbs c9IfGeom c9TryGeom
    { node := Node.nonBlock,
      prevTok := { value := semicolonStr, line := 1, col := 11, startPos := 11, endPos := 12 },
      firstTok := { value := elseKw, line := 1, col := 13, startPos := 13, endPos := 17 } }
    true rfl (by decide) (by decide) (by decide) (by decide)
    (by intro h hh; cases hh; decide)
    (by intro f hf; cases hf)

def catchClauseKey : String := "CatchClause"

/-- C10: the factory's visitor object registers callbacks for exactly the
twelve listed construct types, in source order, and registers none for
CatchClause — so a CatchClause visit runs no callback and produces no
diagnostics, and in particular the defined `checkCatchClause` is never
invoked; every catch-related diagnostic comes from the TryStatement
visit (see `checkTryStatement`, keyed on the TryStatement policy). -/
theorem c10_visitor_registration (o : Options) (n : AnyNode) :
  (visitorMap o).map Prod.fst
    = ["FunctionDeclaration", "FunctionExpression", "ArrowFunctionExpression",
       "IfStatement", "TryStatement", "DoWhileStatement", "WhileStatement",
       "WithStatement", "ForStatement", "ForInStatement", "ForOfStatement",
       "SwitchStatement"]
  ∧ List.lookup catchClauseKey (visitorMap o) = none
  ∧ runVisitor o catchClauseKey n = [] :=
  ⟨rfl, rfl, rfl⟩

end BraceRules
